import Mathlib

/-!
Shallow embedding of the Talent Ops Platform backend (src/main.py and
src/schemas.py) and proofs about it.

Conventions of the embedding:
* Python `float` values in payloads become `ℚ`.
* Python `date`/`datetime` values are carried as their ISO strings (`PyDate`).
* The document store adapter (`database.py`, which is not part of `src/`) is
  modelled from the spec's collaborator contract: `insert(collection, doc)`
  appends the document to the collection's list and returns a fresh identifier
  drawn from a counter, and `query(collection, filter, limit)` filters the
  collection's list in insertion order.
* pydantic's `EmailStr` format check is performed by an external library and is
  modelled as field presence only; no claim depends on the email grammar.
* Raised `HTTPException`s / pydantic `ValidationError`s become `Err` results;
  an endpoint that raises leaves the store untouched.
-/

namespace TalentOps

/-- Client errors raised by the API layer: `unknownEntity` models the HTTP 404
"Unknown entity" response of the generic CRUD dispatcher, and
`validationError f` models a pydantic validation failure on field `f`
(HTTP 422). -/
inductive Err where
  | unknownEntity : Err
  | validationError : String → Err
deriving DecidableEq

/-- Calendar dates are carried as ISO strings in this embedding. -/
abbrev PyDate := String

/-- Validated record for schemas.py `User`. -/
structure User where
  name : String
  email : String
  role : String
  department : Option String
  is_active : Bool
deriving DecidableEq

/-- Validated record for schemas.py `Employee`. -/
structure Employee where
  user_id : String
  employee_id : String
  title : String
  manager_id : Option String
  team : Option String
  location : Option String
  salary : Option ℚ
deriving DecidableEq

/-- Validated record for schemas.py `Team`. -/
structure Team where
  name : String
  lead_user_id : Option String
  members : List String
deriving DecidableEq

/-- Validated record for schemas.py `Attendance`. -/
structure Attendance where
  user_id : String
  date : PyDate
  status : String
  check_in : Option String
  check_out : Option String
deriving DecidableEq

/-- Validated record for schemas.py `Leave`. -/
structure Leave where
  user_id : String
  start_date : PyDate
  end_date : PyDate
  type : String
  reason : Option String
  status : String
deriving DecidableEq

/-- Validated record for schemas.py `Task`. -/
structure Task where
  title : String
  description : Option String
  assignee_id : String
  due_date : Option PyDate
  status : String
  tags : List String
deriving DecidableEq

/-- Validated record for schemas.py `Timesheet`. -/
structure Timesheet where
  user_id : String
  task_id : Option String
  date : PyDate
  hours : ℚ
  notes : Option String
deriving DecidableEq

/-- Validated record for schemas.py `Payroll`. -/
structure Payroll where
  user_id : String
  period_start : PyDate
  period_end : PyDate
  gross : ℚ
  tax : ℚ
  deductions : ℚ
  net : ℚ
  status : String
deriving DecidableEq

/-- Validated record for schemas.py `Job`. -/
structure Job where
  title : String
  department : Option String
  location : Option String
  description : Option String
  status : String
deriving DecidableEq

/-- Validated record for schemas.py `Application`. -/
structure Application where
  job_id : String
  name : String
  email : String
  phone : Option String
  resume_text : Option String
  stage : String
  score : Option ℚ
deriving DecidableEq

/-- Validated record for schemas.py `ResumeparseResult`. -/
structure ResumeparseResult where
  application_id : String
  name : Option String
  email : Option String
  phone : Option String
  skills : List String
  years_experience : Option ℚ
  education : Option String
  raw_summary : Option String
deriving DecidableEq

/-- Validated record for schemas.py `Performance`. -/
structure Performance where
  user_id : String
  period : String
  goals : List String
  rating : Option ℚ
  feedback : Option String
deriving DecidableEq

/-- Validated record for schemas.py `Announcement`. -/
structure Announcement where
  title : String
  message : String
  audience : String
  priority : String
  expires_at : Option String
deriving DecidableEq

/-- Validated record for schemas.py `Ticket`. -/
structure Ticket where
  user_id : String
  subject : String
  message : String
  status : String
  assignee_id : Option String
  category : Option String
deriving DecidableEq

/-- Validated record for schemas.py `Notification`. -/
structure Notification where
  user_id : String
  type : String
  title : String
  body : String
  read : Bool
deriving DecidableEq

/-- Untyped JSON-dict payload of `POST /api/{entity}`: one optional slot per
attribute name appearing in any of the 15 schemas. An absent key is `none`. -/
structure Payload where
  name : Option String := none
  email : Option String := none
  role : Option String := none
  department : Option String := none
  is_active : Option Bool := none
  user_id : Option String := none
  employee_id : Option String := none
  title : Option String := none
  manager_id : Option String := none
  team : Option String := none
  location : Option String := none
  salary : Option ℚ := none
  lead_user_id : Option String := none
  members : Option (List String) := none
  date : Option PyDate := none
  status : Option String := none
  check_in : Option String := none
  check_out : Option String := none
  start_date : Option PyDate := none
  end_date : Option PyDate := none
  type : Option String := none
  reason : Option String := none
  description : Option String := none
  assignee_id : Option String := none
  due_date : Option PyDate := none
  tags : Option (List String) := none
  task_id : Option String := none
  hours : Option ℚ := none
  notes : Option String := none
  period_start : Option PyDate := none
  period_end : Option PyDate := none
  gross : Option ℚ := none
  tax : Option ℚ := none
  deductions : Option ℚ := none
  net : Option ℚ := none
  job_id : Option String := none
  phone : Option String := none
  resume_text : Option String := none
  stage : Option String := none
  score : Option ℚ := none
  application_id : Option String := none
  skills : Option (List String) := none
  years_experience : Option ℚ := none
  education : Option String := none
  raw_summary : Option String := none
  period : Option String := none
  goals : Option (List String) := none
  rating : Option ℚ := none
  feedback : Option String := none
  message : Option String := none
  audience : Option String := none
  priority : Option String := none
  expires_at : Option String := none
  category : Option String := none
  subject : Option String := none
  body : Option String := none
  read : Option Bool := none
deriving DecidableEq

/-- Modelled from the spec: the document store. One list per collection (15
collections, one per entity kind), kept in insertion order, plus the counter
from which insert draws fresh identifiers. -/
structure Store where
  nextId : Nat := 0
  users : List (Nat × User) := []
  employees : List (Nat × Employee) := []
  teams : List (Nat × Team) := []
  attendances : List (Nat × Attendance) := []
  leaves : List (Nat × Leave) := []
  tasks : List (Nat × Task) := []
  timesheets : List (Nat × Timesheet) := []
  payrolls : List (Nat × Payroll) := []
  jobs : List (Nat × Job) := []
  applications : List (Nat × Application) := []
  resumeparseresults : List (Nat × ResumeparseResult) := []
  performances : List (Nat × Performance) := []
  announcements : List (Nat × Announcement) := []
  tickets : List (Nat × Ticket) := []
  notifications : List (Nat × Notification) := []
deriving DecidableEq

/-- The empty store. -/
def store0 : Store := {}

/-- Modelled from the spec: `create_document("user", doc)` appends and returns
the fresh identifier. -/
def insert_user (u : User) (st : Store) : Nat × Store :=
  (st.nextId, { st with nextId := st.nextId + 1, users := st.users ++ [(st.nextId, u)] })

/-- Modelled from the spec: insert into the `employee` collection. -/
def insert_employee (r : Employee) (st : Store) : Nat × Store :=
  (st.nextId, { st with nextId := st.nextId + 1, employees := st.employees ++ [(st.nextId, r)] })

/-- Modelled from the spec: insert into the `team` collection. -/
def insert_team (r : Team) (st : Store) : Nat × Store :=
  (st.nextId, { st with nextId := st.nextId + 1, teams := st.teams ++ [(st.nextId, r)] })

/-- Modelled from the spec: insert into the `attendance` collection. -/
def insert_attendance (r : Attendance) (st : Store) : Nat × Store :=
  (st.nextId, { st with nextId := st.nextId + 1, attendances := st.attendances ++ [(st.nextId, r)] })

/-- Modelled from the spec: insert into the `leave` collection. -/
def insert_leave (r : Leave) (st : Store) : Nat × Store :=
  (st.nextId, { st with nextId := st.nextId + 1, leaves := st.leaves ++ [(st.nextId, r)] })

/-- Modelled from the spec: insert into the `task` collection. -/
def insert_task (r : Task) (st : Store) : Nat × Store :=
  (st.nextId, { st with nextId := st.nextId + 1, tasks := st.tasks ++ [(st.nextId, r)] })

/-- Modelled from the spec: insert into the `timesheet` collection. -/
def insert_timesheet (r : Timesheet) (st : Store) : Nat × Store :=
  (st.nextId, { st with nextId := st.nextId + 1, timesheets := st.timesheets ++ [(st.nextId, r)] })

/-- Modelled from the spec: insert into the `payroll` collection. -/
def insert_payroll (r : Payroll) (st : Store) : Nat × Store :=
  (st.nextId, { st with nextId := st.nextId + 1, payrolls := st.payrolls ++ [(st.nextId, r)] })

/-- Modelled from the spec: insert into the `job` collection. -/
def insert_job (r : Job) (st : Store) : Nat × Store :=
  (st.nextId, { st with nextId := st.nextId + 1, jobs := st.jobs ++ [(st.nextId, r)] })

/-- Modelled from the spec: insert into the `application` collection. -/
def insert_application (r : Application) (st : Store) : Nat × Store :=
  (st.nextId, { st with nextId := st.nextId + 1, applications := st.applications ++ [(st.nextId, r)] })

/-- Modelled from the spec: insert into the `resumeparseresult` collection. -/
def insert_resumeparseresult (r : ResumeparseResult) (st : Store) : Nat × Store :=
  (st.nextId, { st with nextId := st.nextId + 1, resumeparseresults := st.resumeparseresults ++ [(st.nextId, r)] })

/-- Modelled from the spec: insert into the `performance` collection. -/
def insert_performance (r : Performance) (st : Store) : Nat × Store :=
  (st.nextId, { st with nextId := st.nextId + 1, performances := st.performances ++ [(st.nextId, r)] })

/-- Modelled from the spec: insert into the `announcement` collection. -/
def insert_announcement (r : Announcement) (st : Store) : Nat × Store :=
  (st.nextId, { st with nextId := st.nextId + 1, announcements := st.announcements ++ [(st.nextId, r)] })

/-- Modelled from the spec: insert into the `ticket` collection. -/
def insert_ticket (r : Ticket) (st : Store) : Nat × Store :=
  (st.nextId, { st with nextId := st.nextId + 1, tickets := st.tickets ++ [(st.nextId, r)] })

/-- Modelled from the spec: insert into the `notification` collection. -/
def insert_notification (r : Notification) (st : Store) : Nat × Store :=
  (st.nextId, { st with nextId := st.nextId + 1, notifications := st.notifications ++ [(st.nextId, r)] })

/-- Require an optional string field to be present (pydantic `Field(...)`). -/
def reqStr (x : Option String) (fieldName : String) : Except Err String :=
  match x with
  | some v => Except.ok v
  | none => Except.error (Err.validationError fieldName)

/-- Require an optional numeric field to be present. -/
def reqNum (x : Option ℚ) (fieldName : String) : Except Err ℚ :=
  match x with
  | some v => Except.ok v
  | none => Except.error (Err.validationError fieldName)

/-- Enumerated field: pydantic `Literal[...]` rejects any value outside the
closed set. -/
def checkEnum (v : String) (allowed : List String) (fieldName : String) : Except Err String :=
  if v ∈ allowed then Except.ok v else Except.error (Err.validationError fieldName)

/-- Optional numeric field with a lower bound (pydantic `ge=lo`). -/
def checkOptGe (x : Option ℚ) (lo : ℚ) (fieldName : String) : Except Err (Option ℚ) :=
  match x with
  | none => Except.ok none
  | some v => if v < lo then Except.error (Err.validationError fieldName) else Except.ok (some v)

/-- Optional numeric field with inclusive bounds (pydantic `ge=lo, le=hi`). -/
def checkOptRange (x : Option ℚ) (lo hi : ℚ) (fieldName : String) : Except Err (Option ℚ) :=
  match x with
  | none => Except.ok none
  | some v =>
    if v < lo ∨ hi < v then Except.error (Err.validationError fieldName) else Except.ok (some v)

/-- Required numeric field with a lower bound. -/
def checkGe (v : ℚ) (lo : ℚ) (fieldName : String) : Except Err ℚ :=
  if v < lo then Except.error (Err.validationError fieldName) else Except.ok v

/-- Required numeric field with inclusive bounds. -/
def checkRange (v : ℚ) (lo hi : ℚ) (fieldName : String) : Except Err ℚ :=
  if v < lo ∨ hi < v then Except.error (Err.validationError fieldName) else Except.ok v

/-- Validation for schemas.py `User`. `role` has the pydantic default
`"employee"` and `is_active` the default `True`; `EmailStr`'s format check is
external and modelled as presence. -/
def validateUser (p : Payload) : Except Err User :=
  match p.name, p.email with
  | some nm, some em =>
    (match checkEnum (p.role.getD "employee") ["executive", "team_lead", "employee"] "role" with
     | Except.error e => Except.error e
     | Except.ok role =>
       Except.ok { name := nm, email := em, role := role,
                   department := p.department, is_active := p.is_active.getD true })
  | none, _ => Except.error (Err.validationError "name")
  | _, none => Except.error (Err.validationError "email")

/-- Validation for schemas.py `Employee`: `user_id`, `employee_id`, `title`
required; `salary` optional with `ge=0`. -/
def validateEmployee (p : Payload) : Except Err Employee :=
  match p.user_id, p.employee_id, p.title with
  | some uid, some eid, some ttl =>
    (match checkOptGe p.salary 0 "salary" with
     | Except.error e => Except.error e
     | Except.ok sal =>
       Except.ok { user_id := uid, employee_id := eid, title := ttl,
                   manager_id := p.manager_id, team := p.team,
                   location := p.location, salary := sal })
  | none, _, _ => Except.error (Err.validationError "user_id")
  | _, none, _ => Except.error (Err.validationError "employee_id")
  | _, _, none => Except.error (Err.validationError "title")

/-- Validation for schemas.py `Team`: `name` required, `members` defaults to
the empty list. -/
def validateTeam (p : Payload) : Except Err Team :=
  match p.name with
  | some nm => Except.ok { name := nm, lead_user_id := p.lead_user_id, members := p.members.getD [] }
  | none => Except.error (Err.validationError "name")

/-- Validation for schemas.py `Attendance`: `status` is an enum with default
`"present"`. -/
def validateAttendance (p : Payload) : Except Err Attendance :=
  match p.user_id, p.date with
  | some uid, some d =>
    (match checkEnum (p.status.getD "present") ["present", "absent", "remote", "leave"] "status" with
     | Except.error e => Except.error e
     | Except.ok status =>
       Except.ok { user_id := uid, date := d, status := status,
                   check_in := p.check_in, check_out := p.check_out })
  | none, _ => Except.error (Err.validationError "user_id")
  | _, none => Except.error (Err.validationError "date")

/-- Validation for schemas.py `Leave`. -/
def validateLeave (p : Payload) : Except Err Leave :=
  match p.user_id, p.start_date, p.end_date with
  | some uid, some sd, some ed =>
    (match checkEnum (p.type.getD "annual")
        ["annual", "sick", "unpaid", "maternity", "paternity", "other"] "type" with
     | Except.error e => Except.error e
     | Except.ok ty =>
       match checkEnum (p.status.getD "pending") ["pending", "approved", "rejected"] "status" with
       | Except.error e => Except.error e
       | Except.ok status =>
         Except.ok { user_id := uid, start_date := sd, end_date := ed,
                     type := ty, reason := p.reason, status := status })
  | none, _, _ => Except.error (Err.validationError "user_id")
  | _, none, _ => Except.error (Err.validationError "start_date")
  | _, _, none => Except.error (Err.validationError "end_date")

/-- Validation for schemas.py `Task`. -/
def validateTask (p : Payload) : Except Err Task :=
  match p.title, p.assignee_id with
  | some ttl, some aid =>
    (match checkEnum (p.status.getD "todo") ["todo", "in_progress", "blocked", "done"] "status" with
     | Except.error e => Except.error e
     | Except.ok status =>
       Except.ok { title := ttl, description := p.description, assignee_id := aid,
                   due_date := p.due_date, status := status, tags := p.tags.getD [] })
  | none, _ => Except.error (Err.validationError "title")
  | _, none => Except.error (Err.validationError "assignee_id")

/-- Validation for schemas.py `Timesheet`: `hours` is required with
`ge=0, le=24`. -/
def validateTimesheet (p : Payload) : Except Err Timesheet :=
  match p.user_id, p.date with
  | some uid, some d =>
    (match reqNum p.hours "hours" with
     | Except.error e => Except.error e
     | Except.ok h =>
       match checkRange h 0 24 "hours" with
       | Except.error e => Except.error e
       | Except.ok h =>
         Except.ok { user_id := uid, task_id := p.task_id, date := d, hours := h, notes := p.notes })
  | none, _ => Except.error (Err.validationError "user_id")
  | _, none => Except.error (Err.validationError "date")

/-- Validation for schemas.py `Payroll`. -/
def validatePayroll (p : Payload) : Except Err Payroll :=
  match p.user_id, p.period_start, p.period_end with
  | some uid, some ps, some pe =>
    (match reqNum p.gross "gross" with
     | Except.error e => Except.error e
     | Except.ok g =>
       match checkGe g 0 "gross" with
       | Except.error e => Except.error e
       | Except.ok g =>
         match checkGe (p.tax.getD 0) 0 "tax" with
         | Except.error e => Except.error e
         | Except.ok tx =>
           match checkGe (p.deductions.getD 0) 0 "deductions" with
           | Except.error e => Except.error e
           | Except.ok ded =>
             match reqNum p.net "net" with
             | Except.error e => Except.error e
             | Except.ok n =>
               match checkGe n 0 "net" with
               | Except.error e => Except.error e
               | Except.ok n =>
                 match checkEnum (p.status.getD "pending") ["pending", "paid", "on_hold"] "status" with
                 | Except.error e => Except.error e
                 | Except.ok status =>
                   Except.ok { user_id := uid, period_start := ps, period_end := pe,
                               gross := g, tax := tx, deductions := ded, net := n, status := status })
  | none, _, _ => Except.error (Err.validationError "user_id")
  | _, none, _ => Except.error (Err.validationError "period_start")
  | _, _, none => Except.error (Err.validationError "period_end")

/-- Validation for schemas.py `Job`. -/
def validateJob (p : Payload) : Except Err Job :=
  match p.title with
  | some ttl =>
    (match checkEnum (p.status.getD "open") ["open", "paused", "closed"] "status" with
     | Except.error e => Except.error e
     | Except.ok status =>
       Except.ok { title := ttl, department := p.department, location := p.location,
                   description := p.description, status := status })
  | none => Except.error (Err.validationError "title")

/-- Validation for schemas.py `Application`. -/
def validateApplication (p : Payload) : Except Err Application :=
  match p.job_id, p.name, p.email with
  | some jid, some nm, some em =>
    (match checkEnum (p.stage.getD "applied")
        ["applied", "screen", "interview", "offer", "hired", "rejected"] "stage" with
     | Except.error e => Except.error e
     | Except.ok stage =>
       match checkOptRange p.score 0 100 "score" with
       | Except.error e => Except.error e
       | Except.ok sc =>
         Except.ok { job_id := jid, name := nm, email := em, phone := p.phone,
                     resume_text := p.resume_text, stage := stage, score := sc })
  | none, _, _ => Except.error (Err.validationError "job_id")
  | _, none, _ => Except.error (Err.validationError "name")
  | _, _, none => Except.error (Err.validationError "email")

/-- Validation for schemas.py `ResumeparseResult`. -/
def validateResumeparseResult (p : Payload) : Except Err ResumeparseResult :=
  match p.application_id with
  | some aid =>
    Except.ok { application_id := aid, name := p.name, email := p.email, phone := p.phone,
                skills := p.skills.getD [], years_experience := p.years_experience,
                education := p.education, raw_summary := p.raw_summary }
  | none => Except.error (Err.validationError "application_id")

/-- Validation for schemas.py `Performance`: `rating` optional with
`ge=1, le=5`. -/
def validatePerformance (p : Payload) : Except Err Performance :=
  match p.user_id, p.period with
  | some uid, some per =>
    (match checkOptRange p.rating 1 5 "rating" with
     | Except.error e => Except.error e
     | Except.ok rat =>
       Except.ok { user_id := uid, period := per, goals := p.goals.getD [],
                   rating := rat, feedback := p.feedback })
  | none, _ => Except.error (Err.validationError "user_id")
  | _, none => Except.error (Err.validationError "period")

/-- Validation for schemas.py `Announcement`. -/
def validateAnnouncement (p : Payload) : Except Err Announcement :=
  match p.title, p.message with
  | some ttl, some msg =>
    (match checkEnum (p.audience.getD "all") ["all", "executive", "team_lead", "employee"] "audience" with
     | Except.error e => Except.error e
     | Except.ok aud =>
       match checkEnum (p.priority.getD "normal") ["low", "normal", "high"] "priority" with
       | Except.error e => Except.error e
       | Except.ok prio =>
         Except.ok { title := ttl, message := msg, audience := aud,
                     priority := prio, expires_at := p.expires_at })
  | none, _ => Except.error (Err.validationError "title")
  | _, none => Except.error (Err.validationError "message")

/-- Validation for schemas.py `Ticket`. -/
def validateTicket (p : Payload) : Except Err Ticket :=
  match p.user_id, p.subject, p.message with
  | some uid, some sub, some msg =>
    (match checkEnum (p.status.getD "open") ["open", "in_progress", "resolved", "closed"] "status" with
     | Except.error e => Except.error e
     | Except.ok status =>
       Except.ok { user_id := uid, subject := sub, message := msg, status := status,
                   assignee_id := p.assignee_id, category := p.category })
  | none, _, _ => Except.error (Err.validationError "user_id")
  | _, none, _ => Except.error (Err.validationError "subject")
  | _, _, none => Except.error (Err.validationError "message")

/-- Validation for schemas.py `Notification`: `read` defaults to `False`. -/
def validateNotification (p : Payload) : Except Err Notification :=
  match p.user_id, p.type, p.title, p.body with
  | some uid, some ty, some ttl, some bd =>
    Except.ok { user_id := uid, type := ty, title := ttl, body := bd, read := p.read.getD false }
  | none, _, _, _ => Except.error (Err.validationError "user_id")
  | _, none, _, _ => Except.error (Err.validationError "type")
  | _, _, none, _ => Except.error (Err.validationError "title")
  | _, _, _, none => Except.error (Err.validationError "body")

/-- Shared shape of one branch of `create_entity`: validate, then persist on
success; a raised validation error leaves the store untouched. -/
def run_create (v : Except Err α) (ins : α → Store → Nat × Store) (st : Store) :
    Except Err Nat × Store :=
  match v with
  | Except.error e => (Except.error e, st)
  | Except.ok r =>
    let q := ins r st
    (Except.ok q.1, q.2)

/-- The 15 entity kinds known to the generic CRUD dispatcher, exactly the keys
of the `mapping` dict in `create_entity` (equal to the `allowed` set in
`list_entities`). -/
def known_entities : List String :=
  ["user", "employee", "team", "attendance", "leave", "task", "timesheet", "payroll",
   "job", "application", "resumeparseresult", "performance", "announcement", "ticket",
   "notification"]

/-- `POST /api/{entity}` (`create_entity` in main.py): dispatch the kind string
through the registry, validate the payload, persist on success. An unknown kind
raises HTTP 404 `unknownEntity` before any validation or store access. -/
def create_entity (entity : String) (p : Payload) (st : Store) : Except Err Nat × Store :=
  if entity = "user" then run_create (validateUser p) insert_user st
  else if entity = "employee" then run_create (validateEmployee p) insert_employee st
  else if entity = "team" then run_create (validateTeam p) insert_team st
  else if entity = "attendance" then run_create (validateAttendance p) insert_attendance st
  else if entity = "leave" then run_create (validateLeave p) insert_leave st
  else if entity = "task" then run_create (validateTask p) insert_task st
  else if entity = "timesheet" then run_create (validateTimesheet p) insert_timesheet st
  else if entity = "payroll" then run_create (validatePayroll p) insert_payroll st
  else if entity = "job" then run_create (validateJob p) insert_job st
  else if entity = "application" then run_create (validateApplication p) insert_application st
  else if entity = "resumeparseresult" then run_create (validateResumeparseResult p) insert_resumeparseresult st
  else if entity = "performance" then run_create (validatePerformance p) insert_performance st
  else if entity = "announcement" then run_create (validateAnnouncement p) insert_announcement st
  else if entity = "ticket" then run_create (validateTicket p) insert_ticket st
  else if entity = "notification" then run_create (validateNotification p) insert_notification st
  else (Except.error Err.unknownEntity, st)

/-- One returned item of `GET /api/{entity}`: the record plus its store
identifier surfaced as the public `id`. -/
inductive EntityItem where
  | user : User → EntityItem
  | employee : Employee → EntityItem
  | team : Team → EntityItem
  | attendance : Attendance → EntityItem
  | leave : Leave → EntityItem
  | task : Task → EntityItem
  | timesheet : Timesheet → EntityItem
  | payroll : Payroll → EntityItem
  | job : Job → EntityItem
  | application : Application → EntityItem
  | resumeparseresult : ResumeparseResult → EntityItem
  | performance : Performance → EntityItem
  | announcement : Announcement → EntityItem
  | ticket : Ticket → EntityItem
  | notification : Notification → EntityItem
deriving DecidableEq

/-- `GET /api/{entity}` (`list_entities` in main.py): an unknown kind raises
HTTP 404 `unknownEntity`; a known kind returns up to `limit` records in store
order, each carrying its identifier as `id`. -/
def list_entities (entity : String) (limit : Nat) (st : Store) :
    Except Err (List (Nat × EntityItem)) :=
  if entity = "user" then Except.ok ((st.users.take limit).map (fun d => (d.1, EntityItem.user d.2)))
  else if entity = "employee" then Except.ok ((st.employees.take limit).map (fun d => (d.1, EntityItem.employee d.2)))
  else if entity = "team" then Except.ok ((st.teams.take limit).map (fun d => (d.1, EntityItem.team d.2)))
  else if entity = "attendance" then Except.ok ((st.attendances.take limit).map (fun d => (d.1, EntityItem.attendance d.2)))
  else if entity = "leave" then Except.ok ((st.leaves.take limit).map (fun d => (d.1, EntityItem.leave d.2)))
  else if entity = "task" then Except.ok ((st.tasks.take limit).map (fun d => (d.1, EntityItem.task d.2)))
  else if entity = "timesheet" then Except.ok ((st.timesheets.take limit).map (fun d => (d.1, EntityItem.timesheet d.2)))
  else if entity = "payroll" then Except.ok ((st.payrolls.take limit).map (fun d => (d.1, EntityItem.payroll d.2)))
  else if entity = "job" then Except.ok ((st.jobs.take limit).map (fun d => (d.1, EntityItem.job d.2)))
  else if entity = "application" then Except.ok ((st.applications.take limit).map (fun d => (d.1, EntityItem.application d.2)))
  else if entity = "resumeparseresult" then Except.ok ((st.resumeparseresults.take limit).map (fun d => (d.1, EntityItem.resumeparseresult d.2)))
  else if entity = "performance" then Except.ok ((st.performances.take limit).map (fun d => (d.1, EntityItem.performance d.2)))
  else if entity = "announcement" then Except.ok ((st.announcements.take limit).map (fun d => (d.1, EntityItem.announcement d.2)))
  else if entity = "ticket" then Except.ok ((st.tickets.take limit).map (fun d => (d.1, EntityItem.ticket d.2)))
  else if entity = "notification" then Except.ok ((st.notifications.take limit).map (fun d => (d.1, EntityItem.notification d.2)))
  else Except.error Err.unknownEntity

/-- Python truthiness applied to the optional `time` query parameter:
`time or default` substitutes the default for both `None` and `""`. -/
def py_or_str (time : Option String) (dflt : String) : String :=
  match time with
  | none => dflt
  | some s => if s = "" then dflt else s

/-- `POST /api/attendance/check-in` (`check_in` in main.py). `now_hm` stands for
the ambient `datetime.utcnow().strftime("%H:%M")` and `today` for the ambient
`datetime.utcnow().date()` ISO string. The endpoint unconditionally constructs
and persists a fresh Attendance record with only `check_in` set. -/
def check_in (user_id : String) (time : Option String) (now_hm : String) (today : PyDate)
    (st : Store) : Nat × Store :=
  let t := py_or_str time now_hm
  insert_attendance { user_id := user_id, date := today, status := "present",
                      check_in := some t, check_out := none } st

/-- `POST /api/attendance/check-out` (`check_out` in main.py): same shape as
check-in but sets only `check_out`. -/
def check_out (user_id : String) (time : Option String) (now_hm : String) (today : PyDate)
    (st : Store) : Nat × Store :=
  let t := py_or_str time now_hm
  insert_attendance { user_id := user_id, date := today, status := "present",
                      check_in := none, check_out := some t } st

/-- Floor of a rational, computed on its normalized numerator/denominator. -/
def ratFloor (q : ℚ) : ℤ := Int.fdiv q.num q.den

/-- Python 3 `round` to an integer: nearest, ties to even. -/
def pyRound (x : ℚ) : ℤ :=
  let n := ratFloor x
  let frac := x - (n : ℚ)
  if frac < 1/2 then n
  else if 1/2 < frac then n + 1
  else if n % 2 = 0 then n else n + 1

/-- Python `round(x, 2)`. -/
def round2 (x : ℚ) : ℚ := (pyRound (x * 100) : ℚ) / 100

/-- The `summary` object of `POST /api/analytics/insights`. -/
structure InsightSummary where
  workforce_size : Nat
  task_completion_rate : ℚ
  open_roles : Nat
  tickets_open : Nat
  utilization_pct : ℚ
  time_horizon_days : Nat
deriving DecidableEq

/-- `POST /api/analytics/insights` (`analytics_insights` in main.py), summary
part. `horizon_days` has already passed the `InsightRequest` bounds (1..365).
The `narrative` string is a fixed template over these numbers and is not
modelled. -/
def analytics_insights (horizon_days : Nat) (st : Store) : InsightSummary :=
  let employees := st.employees.length
  let tasks_total := st.tasks.length
  let tasks_done := (st.tasks.filter (fun t => t.2.status == "done")).length
  let open_roles := (st.jobs.filter (fun j => j.2.status == "open")).length
  let tickets_open := (st.tickets.filter (fun t => t.2.status == "open" || t.2.status == "in_progress")).length
  let utilization : ℚ :=
    if employees ≠ 0 then
      let total_hours := (st.timesheets.map (fun x => x.2.hours)).sum
      round2 (min 100 (total_hours / ((max 1 employees : Nat) : ℚ) / (horizon_days : ℚ) * 100 / 8))
    else 0
  { workforce_size := employees
    task_completion_rate :=
      if tasks_total ≠ 0 then round2 ((tasks_done : ℚ) / (tasks_total : ℚ) * 100) else 0
    open_roles := open_roles
    tickets_open := tickets_open
    utilization_pct := utilization
    time_horizon_days := horizon_days }

/-- Whitespace characters recognized by Python `str.strip` / `str.split` (the
ASCII ones; the claims only involve ASCII text). -/
def pySpace (c : Char) : Bool :=
  c = ' ' || c = '\t' || c = '\n' || c = '\r' || c = '\x0b' || c = '\x0c'

/-- Worker for `pySplitlines`: `cur` is the reversed current line. -/
def splitlinesGo (cur : List Char) : List Char → List (List Char)
  | [] => if cur.isEmpty then [] else [cur.reverse]
  | '\r' :: '\n' :: rest => cur.reverse :: splitlinesGo [] rest
  | '\n' :: rest => cur.reverse :: splitlinesGo [] rest
  | '\r' :: rest => cur.reverse :: splitlinesGo [] rest
  | c :: rest => splitlinesGo (c :: cur) rest

/-- Python `str.splitlines` over the `\n`, `\r\n` and `\r` boundaries: a
terminator ends a line, and a trailing terminator does not create an empty
final line. -/
def pySplitlines (s : List Char) : List (List Char) := splitlinesGo [] s

/-- Python `str.strip()`. -/
def pyStrip (s : List Char) : List Char :=
  ((s.dropWhile pySpace).reverse.dropWhile pySpace).reverse

/-- Worker for `pySplit`: `cur` is the reversed current token. -/
def pySplitGo (cur : List Char) : List Char → List (List Char)
  | [] => if cur.isEmpty then [] else [cur.reverse]
  | c :: rest =>
    if pySpace c then
      if cur.isEmpty then pySplitGo [] rest else cur.reverse :: pySplitGo [] rest
    else pySplitGo (c :: cur) rest

/-- Python `str.split()` with no argument: split on runs of whitespace,
producing no empty tokens. -/
def pySplit (s : List Char) : List (List Char) := pySplitGo [] s

/-- Python `str.lower()` (ASCII case folding). -/
def pyLower (s : List Char) : List Char := s.map Char.toLower

/-- Whether `hay` starts with `needle`. -/
def beginsWith : List Char → List Char → Bool
  | [], _ => true
  | _ :: _, [] => false
  | a :: ta, b :: tb => a = b && beginsWith ta tb

/-- Python substring membership `needle in hay`. -/
def containsSub (needle : List Char) : List Char → Bool
  | [] => needle.isEmpty
  | c :: rest => beginsWith needle (c :: rest) || containsSub needle rest

/-- Python `str.isdigit` (ASCII digits). -/
def pyIsDigit (s : List Char) : Bool :=
  !s.isEmpty && s.all (fun c => '0' ≤ c && c ≤ '9')

/-- Numeric value of a decimal digit string. -/
def natOfDigits (s : List Char) : Nat :=
  s.foldl (fun a c => a * 10 + (c.toNat - '0'.toNat)) 0

/-- Exact value of a Python decimal float literal, kept as a decimal
mantissa/scale pair (the float equals `mantissa / 10 ^ scale`) so that the
whole parser stays kernel-computable. -/
structure PyFloat where
  mantissa : Nat
  scale : Nat
deriving DecidableEq

/-- Rational value of a parsed float. -/
def PyFloat.val (f : PyFloat) : ℚ := (f.mantissa : ℚ) / (10 : ℚ) ^ f.scale

/-- Python float truthiness: a float is truthy iff it is nonzero. -/
def PyFloat.truthy (f : PyFloat) : Bool := f.mantissa != 0

/-- Python `float(s)` for strings made of digits and dots (the only shapes the
years loop can pass it): raises `ValueError` (here `none`) unless the string
has at least one digit and at most one dot. -/
def pyFloatOfChars (s : List Char) : Option PyFloat :=
  if s.all (fun c => ('0' ≤ c && c ≤ '9') || c = '.') && s.any (fun c => '0' ≤ c && c ≤ '9')
      && s.count '.' ≤ 1 then
    let ip := s.takeWhile (fun c => c ≠ '.')
    let fp := (s.dropWhile (fun c => c ≠ '.')).drop 1
    some { mantissa := natOfDigits (ip ++ fp), scale := fp.length }
  else none

/-- The fixed skill keyword vocabulary of the resume parser. -/
def skill_keywords : List (List Char) :=
  ["python".data, "javascript".data, "react".data, "node".data, "aws".data, "docker".data,
   "kubernetes".data, "sql".data, "fastapi".data, "django".data, "java".data, "c++".data,
   "ml".data, "nlp".data, "git".data, "linux".data]

/-- First whitespace-delimited token of a line that keeps only digits once `+`
and `.` are removed (`token.replace("+", "").replace(".", "").isdigit()`). -/
def firstDigitToken (l : List Char) : Option (List Char) :=
  (pySplit l).find? (fun tok => pyIsDigit (tok.filter (fun c => c ≠ '+' && c ≠ '.')))

/-- Python truthiness of the loop variable `years : Optional[float]`. -/
def optTruthy : Option PyFloat → Bool
  | none => false
  | some f => f.truthy

/-- `float(token.replace("+", ""))`. -/
def lineTokenVal (tok : List Char) : Option PyFloat :=
  pyFloatOfChars (tok.filter (fun c => c ≠ '+'))

/-- Effect of the inner token loop on one "years" line: `some none` when no
token qualifies (`years` untouched), `some (some f)` when the first qualifying
token parses to `f`, and `none` when `float` raises `ValueError`. -/
def lineVal (l : List Char) : Option (Option PyFloat) :=
  match firstDigitToken l with
  | none => some none
  | some tok =>
    match lineTokenVal tok with
    | none => none
    | some f => some (some f)

/-- The assignment of the inner loop: overwrite `years` when a value was
extracted, keep it otherwise. -/
def updAcc (acc : Option PyFloat) (newv : Option PyFloat) : Option PyFloat :=
  match newv with
  | none => acc
  | some f => some f

/-- The `years` loop of `parse_resume_text`: scan the lines; on a line whose
lowercase form contains "years", run the inner token loop (`lineVal`), update
`years` (`updAcc`), then `break` only when `years` is truthy. A `ValueError`
from `float` propagates as the outer `none`. -/
def yearsScan : List (List Char) → Option PyFloat → Option (Option PyFloat)
  | [], acc => some acc
  | l :: rest, acc =>
    if containsSub "years".data (pyLower l) then
      match lineVal l with
      | none => none
      | some newv =>
        if optTruthy (updAcc acc newv) then some (updAcc acc newv)
        else yearsScan rest (updAcc acc newv)
    else yearsScan rest acc

/-- Response object of `POST /api/ats/parse-text`. -/
structure ParseResult where
  name : Option (List Char)
  email : Option (List Char)
  skills : List (List Char)
  years_experience : Option PyFloat
  raw_summary : List (List Char)
deriving DecidableEq

/-- `POST /api/ats/parse-text` (`parse_resume_text` in main.py). Returns `none`
when the years loop raises `ValueError`. Python `sorted` is modelled by
insertion sort over the lexicographic order on char lists (the same sorted
sequence). -/
def parse_resume_text (text : List Char) : Option ParseResult :=
  let lines := ((pySplitlines text).map pyStrip).filter (fun l => !l.isEmpty)
  let name := lines.head?
  let email := lines.find? (fun l => l.contains '@' && l.contains '.')
  let skills := skill_keywords.filter (fun k => containsSub k (pyLower text))
  match yearsScan lines none with
  | none => none
  | some years =>
    some { name := name, email := email,
           skills := List.insertionSort (· ≤ ·) skills.dedup,
           years_experience := years, raw_summary := lines.take 10 }

/-- `_find_one("user", {"email": email})`: the first user document whose
`email` matches, in store order. Modelled from the spec's query contract. -/
def find_one_user (email : String) (st : Store) : Option (Nat × User) :=
  st.users.find? (fun d => d.2.email == email)

/-- `_find_one("employee", {"user_id": user_id})`. -/
def find_one_employee (user_id : String) (st : Store) : Option (Nat × Employee) :=
  st.employees.find? (fun d => d.2.user_id == user_id)

/-- `_find_one("team", {"name": name})`. -/
def find_one_team (nm : String) (st : Store) : Option (Nat × Team) :=
  st.teams.find? (fun d => d.2.name == nm)

/-- `_get_or_create_user` in main.py: reuse the existing user with this email,
else create one (`is_active` defaults to `True`). Identifiers travel as
strings, as in the source. -/
def get_or_create_user (nm email role : String) (department : Option String) (st : Store) :
    String × Store :=
  match find_one_user email st with
  | some d => (toString d.1, st)
  | none =>
    let q := insert_user { name := nm, email := email, role := role,
                           department := department, is_active := true } st
    (toString q.1, q.2)

/-- `_ensure_employee` in main.py: keyed by `user_id`. -/
def ensure_employee (user_id employee_id title : String)
    (manager_id team location : Option String) (salary : Option ℚ) (st : Store) :
    String × Store :=
  match find_one_employee user_id st with
  | some d => (toString d.1, st)
  | none =>
    let q := insert_employee { user_id := user_id, employee_id := employee_id, title := title,
                               manager_id := manager_id, team := team, location := location,
                               salary := salary } st
    (toString q.1, q.2)

/-- `_ensure_team` in main.py: keyed by team `name`. -/
def ensure_team (nm : String) (lead_user_id : Option String) (member_user_ids : List String)
    (st : Store) : String × Store :=
  match find_one_team nm st with
  | some d => (toString d.1, st)
  | none =>
    let q := insert_team { name := nm, lead_user_id := lead_user_id,
                           members := member_user_ids } st
    (toString q.1, q.2)

/-- Return object of `seed_demo_data`. -/
structure SeedResult where
  executives : List String
  team_leads : List String
  employees : List String
  teams : List String
deriving DecidableEq

/-- `seed_demo_data` in main.py: builds the fixed three-level demo
organization (2 executives, 2 leads, 5 employees, 3 teams), reusing existing
records through the three get-or-create helpers. -/
def seed_demo_data (st : Store) : SeedResult × Store :=
  let ceo := get_or_create_user "Ava Patel" "ava.patel@demo.co" "executive" (some "Executive") st
  let vpops := get_or_create_user "Liam Chen" "liam.chen@demo.co" "executive" (some "Executive") ceo.2
  let engLead := get_or_create_user "Maya Ross" "maya.ross@demo.co" "team_lead" (some "Engineering") vpops.2
  let designLead := get_or_create_user "Noah Green" "noah.green@demo.co" "team_lead" (some "Design") engLead.2
  let emma := get_or_create_user "Emma Johnson" "emma.johnson@demo.co" "employee" (some "Engineering") designLead.2
  let oliver := get_or_create_user "Oliver Smith" "oliver.smith@demo.co" "employee" (some "Engineering") emma.2
  let sophia := get_or_create_user "Sophia Davis" "sophia.davis@demo.co" "employee" (some "Engineering") oliver.2
  let jack := get_or_create_user "Jack Wilson" "jack.wilson@demo.co" "employee" (some "Design") sophia.2
  let mia := get_or_create_user "Mia Thompson" "mia.thompson@demo.co" "employee" (some "Design") jack.2
  let q1 := ensure_employee ceo.1 "EMP1001" "Chief Executive Officer" none (some "Executive") (some "NYC") (some 300000) mia.2
  let q2 := ensure_employee vpops.1 "EMP1002" "VP, Operations" (some ceo.1) (some "Executive") (some "NYC") (some 220000) q1.2
  let q3 := ensure_employee engLead.1 "EMP2001" "Engineering Lead" (some vpops.1) (some "Engineering") (some "Remote") (some 180000) q2.2
  let q4 := ensure_employee designLead.1 "EMP3001" "Design Lead" (some vpops.1) (some "Design") (some "Remote") (some 170000) q3.2
  let q5 := ensure_employee emma.1 "EMP2002" "Senior Software Engineer" (some engLead.1) (some "Engineering") (some "Remote") (some 150000) q4.2
  let q6 := ensure_employee oliver.1 "EMP2003" "Software Engineer" (some engLead.1) (some "Engineering") (some "Remote") (some 130000) q5.2
  let q7 := ensure_employee sophia.1 "EMP2004" "QA Engineer" (some engLead.1) (some "Engineering") (some "Remote") (some 120000) q6.2
  let q8 := ensure_employee jack.1 "EMP3002" "Product Designer" (some designLead.1) (some "Design") (some "Remote") (some 125000) q7.2
  let q9 := ensure_employee mia.1 "EMP3003" "UX Researcher" (some designLead.1) (some "Design") (some "Remote") (some 115000) q8.2
  let t1 := ensure_team "Engineering" (some engLead.1) [engLead.1, emma.1, oliver.1, sophia.1] q9.2
  let t2 := ensure_team "Design" (some designLead.1) [designLead.1, jack.1, mia.1] t1.2
  let t3 := ensure_team "Executive" (some ceo.1) [ceo.1, vpops.1] t2.2
  ({ executives := [ceo.1, vpops.1], team_leads := [engLead.1, designLead.1],
     employees := [emma.1, oliver.1, sophia.1, jack.1, mia.1],
     teams := ["Engineering", "Design", "Executive"] }, t3.2)

/-! Concrete inputs used by witnesses and counterexamples. -/

/-- The empty payload. -/
def payload0 : Payload := {}

/-- Employee payload, otherwise valid but with a negative salary. -/
def payload_emp_bad : Payload :=
  { user_id := some "u1", employee_id := some "E1", title := some "Engineer",
    salary := some (-1) }

/-- Valid employee payload. -/
def payload_emp_ok : Payload :=
  { user_id := some "u1", employee_id := some "E1", title := some "Engineer",
    salary := some 100000 }

/-- Timesheet payload, otherwise valid but with 25 hours. -/
def payload_ts_bad : Payload :=
  { user_id := some "u1", date := some "2026-01-02", hours := some 25 }

/-- Valid timesheet payload. -/
def payload_ts_ok : Payload :=
  { user_id := some "u1", date := some "2026-01-02", hours := some 8 }

/-- User payload with no `role` key. -/
def payload_user_norole : Payload :=
  { name := some "Alice Doe", email := some "alice@example.com" }

/-! Validator support lemmas. -/

/-- A present negative `salary` always fails Employee validation, whatever the
rest of the payload. -/
lemma validateEmployee_neg_salary {p : Payload} {v : ℚ} (hv : p.salary = some v)
    (hneg : v < 0) :
    ∃ f, validateEmployee p = Except.error (Err.validationError f) := by
  unfold validateEmployee
  cases hu : p.user_id with
  | none => exact ⟨"user_id", by cases p.employee_id <;> cases p.title <;> rfl⟩
  | some uid =>
    cases he : p.employee_id with
    | none => exact ⟨"employee_id", by cases p.title <;> rfl⟩
    | some eid =>
      cases ht : p.title with
      | none => exact ⟨"title", rfl⟩
      | some ttl =>
        refine ⟨"salary", ?_⟩
        rw [hv]
        simp [checkOptGe, hneg]

/-- Employee validation succeeds when the required fields are present and the
salary, if given, is nonnegative. -/
lemma validateEmployee_ok_of {p : Payload} {uid eid ttl : String}
    (hu : p.user_id = some uid) (he : p.employee_id = some eid) (ht : p.title = some ttl)
    (hs : ∀ u, p.salary = some u → 0 ≤ u) :
    ∃ r, validateEmployee p = Except.ok r := by
  unfold validateEmployee
  rw [hu, he, ht]
  cases hsal : p.salary with
  | none => exact ⟨_, rfl⟩
  | some u =>
    have h0 : ¬ u < 0 := not_lt.mpr (hs u hsal)
    exact ⟨{ user_id := uid, employee_id := eid, title := ttl, manager_id := p.manager_id,
             team := p.team, location := p.location, salary := some u },
           by simp [checkOptGe, h0]⟩

/-- Present `hours` outside `[0, 24]` always fail Timesheet validation. -/
lemma validateTimesheet_bad_hours {p : Payload} {v : ℚ} (hv : p.hours = some v)
    (hbad : v < 0 ∨ 24 < v) :
    ∃ f, validateTimesheet p = Except.error (Err.validationError f) := by
  unfold validateTimesheet
  cases hu : p.user_id with
  | none => exact ⟨"user_id", by cases p.date <;> rfl⟩
  | some uid =>
    cases hd : p.date with
    | none => exact ⟨"date", rfl⟩
    | some d =>
      refine ⟨"hours", ?_⟩
      rw [hv]
      simp [reqNum, checkRange, hbad]

/-- Timesheet validation succeeds when the required fields are present and the
hours lie in `[0, 24]`. -/
lemma validateTimesheet_ok_of {p : Payload} {uid : String} {d : PyDate} {v : ℚ}
    (hu : p.user_id = some uid) (hd : p.date = some d) (hv : p.hours = some v)
    (h0 : 0 ≤ v) (h24 : v ≤ 24) :
    ∃ r, validateTimesheet p = Except.ok r := by
  unfold validateTimesheet
  rw [hu, hd, hv]
  have hok : ¬ (v < 0 ∨ 24 < v) := by
    push_neg
    exact ⟨h0, h24⟩
  exact ⟨{ user_id := uid, task_id := p.task_id, date := d, hours := v, notes := p.notes },
         by simp [reqNum, checkRange, hok]⟩

/-- C1: for every payload and store, `create(kind, payload)` and
`list(kind, limit)` with a kind string outside the 15 known lowercase entity
names (matched case-sensitively) fail with the HTTP 404 `unknownEntity` client
error, leaving the store untouched and reaching no validator and no insert. -/
theorem create_and_list_unknown_entity (entity : String) (p : Payload) (st : Store)
    (limit : Nat) (h : entity ∉ known_entities) :
    create_entity entity p st = (Except.error Err.unknownEntity, st) ∧
    list_entities entity limit st = Except.error Err.unknownEntity := by
  simp only [known_entities, List.mem_cons, List.not_mem_nil, or_false, not_or] at h
  obtain ⟨h1, h2, h3, h4, h5, h6, h7, h8, h9, h10, h11, h12, h13, h14, h15⟩ := h
  constructor
  · simp [create_entity, h1, h2, h3, h4, h5, h6, h7, h8, h9, h10, h11, h12, h13, h14, h15]
  · simp [list_entities, h1, h2, h3, h4, h5, h6, h7, h8, h9, h10, h11, h12, h13, h14, h15]

/-- Closed witness for C1 at the spec's example kind "widget". -/
theorem create_and_list_unknown_entity_witness :
    ("widget" : String) ∉ known_entities ∧
    create_entity "widget" payload0 store0 = (Except.error Err.unknownEntity, store0) ∧
    list_entities "widget" 50 store0 = Except.error Err.unknownEntity :=
  ⟨by decide, create_and_list_unknown_entity "widget" payload0 store0 50 (by decide)⟩

/-- C2: `create("employee", ·)` with a present negative salary and
`create("timesheet", ·)` with present hours outside `[0, 24]` fail validation
with the store unchanged, while otherwise-valid payloads with salary ≥ 0
respectively hours in `[0, 24]` pass validation. -/
theorem employee_salary_timesheet_hours_validation (p q : Payload) (st : Store) (v w : ℚ)
    (hv : p.salary = some v) (hvneg : v < 0)
    (hw : q.hours = some w) (hwbad : w < 0 ∨ 24 < w) :
    (∃ f, create_entity "employee" p st = (Except.error (Err.validationError f), st)) ∧
    (∃ f, create_entity "timesheet" q st = (Except.error (Err.validationError f), st)) ∧
    (∀ p' : Payload, ∀ uid eid ttl : String,
      p'.user_id = some uid → p'.employee_id = some eid → p'.title = some ttl →
      (∀ u, p'.salary = some u → 0 ≤ u) → ∃ r, validateEmployee p' = Except.ok r) ∧
    (∀ q' : Payload, ∀ uid : String, ∀ d : PyDate, ∀ u : ℚ,
      q'.user_id = some uid → q'.date = some d → q'.hours = some u →
      0 ≤ u → u ≤ 24 → ∃ r, validateTimesheet q' = Except.ok r) := by
  refine ⟨?_, ?_, ?_, ?_⟩
  · obtain ⟨f, hf⟩ := validateEmployee_neg_salary hv hvneg
    refine ⟨f, ?_⟩
    show run_create (validateEmployee p) insert_employee st = _
    rw [hf]
    rfl
  · obtain ⟨f, hf⟩ := validateTimesheet_bad_hours hw hwbad
    refine ⟨f, ?_⟩
    show run_create (validateTimesheet q) insert_timesheet st = _
    rw [hf]
    rfl
  · exact fun p' uid eid ttl hu he ht hs => validateEmployee_ok_of hu he ht hs
  · exact fun q' uid d u hu hd hh h0 h24 => validateTimesheet_ok_of hu hd hh h0 h24

/-- Closed witness for C2: salary −1 and hours 25 are rejected with the store
untouched; salary 100000 and hours 8 validate. -/
theorem employee_salary_timesheet_hours_validation_witness :
    (∃ f, create_entity "employee" payload_emp_bad store0 =
      (Except.error (Err.validationError f), store0)) ∧
    (∃ f, create_entity "timesheet" payload_ts_bad store0 =
      (Except.error (Err.validationError f), store0)) ∧
    (∃ r, validateEmployee payload_emp_ok = Except.ok r) ∧
    (∃ r, validateTimesheet payload_ts_ok = Except.ok r) := by
  have h := employee_salary_timesheet_hours_validation payload_emp_bad payload_ts_bad store0
    (-1) 25 rfl (by norm_num) rfl (by norm_num)
  refine ⟨h.1, h.2.1, ?_, ?_⟩
  · refine h.2.2.1 payload_emp_ok "u1" "E1" "Engineer" rfl rfl rfl ?_
    intro u hu
    have h100 : some (100000 : ℚ) = some u := hu
    injection h100 with h100
    rw [← h100]
    norm_num
  · exact h.2.2.2 payload_ts_ok "u1" "2026-01-02" 8 rfl rfl rfl (by norm_num) (by norm_num)

/-- The User record persisted for `payload_user_norole`. -/
def user_alice : User :=
  { name := "Alice Doe", email := "alice@example.com", role := "employee",
    department := none, is_active := true }

/-- C9 counterexample: `create("user", ·)` with the `role` key missing succeeds
(the record is persisted with role "employee"), so the claim that a missing
role fails validation is false on the code: pydantic gives `role` the default
"employee". -/
theorem user_missing_role_counterexample :
    payload_user_norole.role = none ∧
    create_entity "user" payload_user_norole store0 =
      (Except.ok 0, { store0 with nextId := 1, users := [(0, user_alice)] }) :=
  ⟨rfl, rfl⟩

/-- C9 amended: a payload with `role` missing but `name` and `email` present
passes User validation, with `role` defaulting to "employee" (and `is_active`
to `True` when absent). -/
theorem user_missing_role_defaults (p : Payload) (nm em : String)
    (hrole : p.role = none) (hn : p.name = some nm) (he : p.email = some em) :
    validateUser p = Except.ok { name := nm, email := em, role := "employee",
                                 department := p.department,
                                 is_active := p.is_active.getD true } := by
  unfold validateUser
  rw [hn, he, hrole]
  rfl

/-- Closed witness for the amended C9. -/
theorem user_missing_role_defaults_witness :
    validateUser payload_user_norole =
      Except.ok { name := "Alice Doe", email := "alice@example.com", role := "employee",
                  department := none, is_active := true } :=
  user_missing_role_defaults payload_user_norole "Alice Doe" "alice@example.com" rfl rfl rfl

/-- C3: check-in always persists a brand-new Attendance record with only
`check_in` set, check-out one with only `check_out` set, both dated to the
ambient UTC date with status "present"; a check-in followed by a check-out for
the same user on the same day appends two distinct documents (fresh distinct
identifiers), merging nothing. -/
theorem check_in_then_check_out_two_records (user_id : String) (t1 t2 : Option String)
    (now1 now2 : String) (today : PyDate) (st : Store) :
    ∃ a b : Attendance,
      (check_out user_id t2 now2 today (check_in user_id t1 now1 today st).2).2.attendances =
        st.attendances ++ [(st.nextId, a), (st.nextId + 1, b)] ∧
      st.nextId ≠ st.nextId + 1 ∧
      a.user_id = user_id ∧ a.date = today ∧ a.status = "present" ∧
      a.check_in = some (py_or_str t1 now1) ∧ a.check_out = none ∧
      b.user_id = user_id ∧ b.date = today ∧ b.status = "present" ∧
      b.check_in = none ∧ b.check_out = some (py_or_str t2 now2) := by
  refine ⟨{ user_id := user_id, date := today, status := "present",
            check_in := some (py_or_str t1 now1), check_out := none },
          { user_id := user_id, date := today, status := "present",
            check_in := none, check_out := some (py_or_str t2 now2) },
          ?_, by omega, rfl, rfl, rfl, rfl, rfl, rfl, rfl, rfl, rfl, rfl⟩
  simp [check_in, check_out, insert_attendance]

/-- C10: any nonempty `time` string (for instance "25:99") is stored verbatim
as `check_in`/`check_out` with no HH:MM validation, while `time` passed as the
empty string behaves exactly as an omitted `time`: the ambient UTC HH:MM is
substituted. -/
theorem check_time_never_validated (user_id s now : String) (today : PyDate) (st : Store)
    (hs : s ≠ "") :
    (check_in user_id (some s) now today st).2.attendances =
      st.attendances ++ [(st.nextId,
        { user_id := user_id, date := today, status := "present",
          check_in := some s, check_out := none })] ∧
    (check_out user_id (some s) now today st).2.attendances =
      st.attendances ++ [(st.nextId,
        { user_id := user_id, date := today, status := "present",
          check_in := none, check_out := some s })] ∧
    check_in user_id (some "") now today st = check_in user_id none now today st ∧
    check_out user_id (some "") now today st = check_out user_id none now today st ∧
    (check_in user_id none now today st).2.attendances =
      st.attendances ++ [(st.nextId,
        { user_id := user_id, date := today, status := "present",
          check_in := some now, check_out := none })] ∧
    (check_out user_id none now today st).2.attendances =
      st.attendances ++ [(st.nextId,
        { user_id := user_id, date := today, status := "present",
          check_in := none, check_out := some now })] := by
  refine ⟨?_, ?_, rfl, rfl, rfl, rfl⟩ <;>
    simp [check_in, check_out, insert_attendance, py_or_str, hs]

/-- Closed witness for C10 at the malformed time "25:99". -/
theorem check_time_never_validated_witness :
    (check_in "u1" (some "25:99") "09:00" "2026-10-12" store0).2.attendances =
      store0.attendances ++ [(store0.nextId,
        { user_id := "u1", date := "2026-10-12", status := "present",
          check_in := some "25:99", check_out := none })] ∧
    (check_out "u1" (some "25:99") "09:00" "2026-10-12" store0).2.attendances =
      store0.attendances ++ [(store0.nextId,
        { user_id := "u1", date := "2026-10-12", status := "present",
          check_in := none, check_out := some "25:99" })] ∧
    check_in "u1" (some "") "09:00" "2026-10-12" store0 =
      check_in "u1" none "09:00" "2026-10-12" store0 ∧
    check_out "u1" (some "") "09:00" "2026-10-12" store0 =
      check_out "u1" none "09:00" "2026-10-12" store0 ∧
    (check_in "u1" none "09:00" "2026-10-12" store0).2.attendances =
      store0.attendances ++ [(store0.nextId,
        { user_id := "u1", date := "2026-10-12", status := "present",
          check_in := some "09:00", check_out := none })] ∧
    (check_out "u1" none "09:00" "2026-10-12" store0).2.attendances =
      store0.attendances ++ [(store0.nextId,
        { user_id := "u1", date := "2026-10-12", status := "present",
          check_in := none, check_out := some "09:00" })] :=
  check_time_never_validated "u1" "25:99" "09:00" "2026-10-12" store0 (by decide)

/-- C4: for every store and every horizon in `[1, 365]`, the insights summary
computes the claimed formulas: completion rate done/total × 100 rounded to two
decimals (0 with no tasks), open-role and open-ticket counts, and utilization
`min(100, (Σ hours / max(1, employees)) / horizon × 100 / 8)` rounded to two
decimals (0 with no employees). -/
theorem insights_formulas (horizon_days : Nat) (st : Store)
    (hlo : 1 ≤ horizon_days) (hhi : horizon_days ≤ 365) :
    (analytics_insights horizon_days st).workforce_size = st.employees.length ∧
    (analytics_insights horizon_days st).task_completion_rate =
      (if st.tasks.length = 0 then 0
       else round2 ((st.tasks.countP (fun t => t.2.status == "done") : ℚ) /
         (st.tasks.length : ℚ) * 100)) ∧
    (analytics_insights horizon_days st).open_roles =
      st.jobs.countP (fun j => j.2.status == "open") ∧
    (analytics_insights horizon_days st).tickets_open =
      st.tickets.countP (fun t => t.2.status == "open" || t.2.status == "in_progress") ∧
    (analytics_insights horizon_days st).utilization_pct =
      (if st.employees.length = 0 then 0
       else round2 (min 100 ((st.timesheets.map (fun x => x.2.hours)).sum /
         ((max 1 st.employees.length : Nat) : ℚ) / (horizon_days : ℚ) * 100 / 8))) ∧
    (analytics_insights horizon_days st).time_horizon_days = horizon_days := by
  refine ⟨rfl, ?_, ?_, ?_, ?_, rfl⟩
  · by_cases hT : st.tasks.length = 0 <;>
      simp [analytics_insights, hT, List.countP_eq_length_filter]
  · simp [analytics_insights, List.countP_eq_length_filter]
  · simp [analytics_insights, List.countP_eq_length_filter]
  · by_cases hE : st.employees.length = 0 <;>
      simp [analytics_insights, hE, List.countP_eq_length_filter]

/-- Closed witness for C4 at horizon 30 on the empty store. -/
theorem insights_formulas_witness :
    (1 : Nat) ≤ 30 ∧ (30 : Nat) ≤ 365 ∧
    (analytics_insights 30 store0).task_completion_rate =
      (if store0.tasks.length = 0 then 0
       else round2 ((store0.tasks.countP (fun t => t.2.status == "done") : ℚ) /
         (store0.tasks.length : ℚ) * 100)) ∧
    (analytics_insights 30 store0).utilization_pct =
      (if store0.employees.length = 0 then 0
       else round2 (min 100 ((store0.timesheets.map (fun x => x.2.hours)).sum /
         ((max 1 store0.employees.length : Nat) : ℚ) / (30 : ℚ) * 100 / 8))) :=
  ⟨by decide, by decide, (insights_formulas 30 store0 (by decide) (by decide)).2.1,
   (insights_formulas 30 store0 (by decide) (by decide)).2.2.2.2.1⟩

/-! Resume parser: inputs, extraction lemmas, and claims C5-C7. -/

/-- The spec's worked parse-text example. -/
def resume_text_c5 : List Char :=
  ("Jane Doe\njane@x.com\n5 years experience in python and docker").data

/-- The response the parser produces on `resume_text_c5`. -/
def parse_result_c5 : ParseResult :=
  { name := some ("Jane Doe").data, email := some ("jane@x.com").data,
    skills := [("docker").data, ("python").data],
    years_experience := some { mantissa := 5, scale := 0 },
    raw_summary := [("Jane Doe").data, ("jane@x.com").data,
      ("5 years experience in python and docker").data] }

/-- Text whose first "years" line has no qualifying token. -/
def resume_text_c6 : List Char := ("many years ago\n7 years at x").data

/-- The response the parser produces on `resume_text_c6`. -/
def parse_result_c6 : ParseResult :=
  { name := some ("many years ago").data, email := none, skills := [],
    years_experience := some { mantissa := 7, scale := 0 },
    raw_summary := [("many years ago").data, ("7 years at x").data] }

/-- Text whose first line carries surrounding whitespace. -/
def resume_text_c7 : List Char := ("  hello  \nworld").data

/-- The response the parser produces on `resume_text_c7`. -/
def parse_result_c7 : ParseResult :=
  { name := some ("hello").data, email := none, skills := [],
    years_experience := none,
    raw_summary := [("hello").data, ("world").data] }

/-- Soundness of the decimal-pair float model: a parsed float is truthy
exactly when its rational value is nonzero. -/
lemma pyFloat_truthy_iff (f : PyFloat) : f.truthy = true ↔ f.val ≠ 0 := by
  have h10 : ((10 : ℚ)) ^ f.scale ≠ 0 := pow_ne_zero _ (by norm_num)
  simp [PyFloat.truthy, PyFloat.val, div_eq_zero_iff, h10]

/-- Field-wise description of a successful `parse_resume_text` run, read off
the definition. -/
lemma parse_resume_text_fields {t : List Char} {r : ParseResult}
    (h : parse_resume_text t = some r) :
    r.name = (((pySplitlines t).map pyStrip).filter (fun l => !l.isEmpty)).head? ∧
    r.email = (((pySplitlines t).map pyStrip).filter (fun l => !l.isEmpty)).find?
      (fun l => l.contains '@' && l.contains '.') ∧
    r.skills = List.insertionSort (· ≤ ·)
      ((skill_keywords.filter (fun k => containsSub k (pyLower t))).dedup) ∧
    yearsScan (((pySplitlines t).map pyStrip).filter (fun l => !l.isEmpty)) none =
      some r.years_experience ∧
    r.raw_summary = (((pySplitlines t).map pyStrip).filter (fun l => !l.isEmpty)).take 10 := by
  simp only [parse_resume_text] at h
  cases hys : yearsScan (((pySplitlines t).map pyStrip).filter (fun l => !l.isEmpty)) none with
  | none =>
    rw [hys] at h
    exact Option.noConfusion h
  | some years =>
    rw [hys] at h
    injection h with h
    subst h
    exact ⟨rfl, rfl, rfl, rfl, rfl⟩

/-- C5: the parser's worked example gives name "Jane Doe", email "jane@x.com",
skills ["docker", "python"] and years 5.0; in general the skills list holds
exactly the vocabulary keywords occurring in the lowercased text, without
duplicates and lexicographically sorted. -/
theorem parse_skills_sorted_and_example (t : List Char) (r : ParseResult)
    (k : List Char) (h : parse_resume_text t = some r) :
    (k ∈ r.skills ↔ k ∈ skill_keywords ∧ containsSub k (pyLower t) = true) ∧
    List.Sorted (· ≤ ·) r.skills ∧
    r.skills.Nodup ∧
    parse_resume_text resume_text_c5 = some parse_result_c5 ∧
    PyFloat.val { mantissa := 5, scale := 0 } = 5 := by
  obtain ⟨-, -, hsk, -, -⟩ := parse_resume_text_fields h
  refine ⟨?_, ?_, ?_, by decide, by norm_num [PyFloat.val]⟩
  · rw [hsk, (List.perm_insertionSort _ _).mem_iff]
    simp [List.mem_dedup, List.mem_filter]
  · rw [hsk]
    exact List.sorted_insertionSort _ _
  · rw [hsk]
    exact (List.perm_insertionSort _ _).nodup_iff.mpr (List.nodup_dedup _)

/-- Closed witness for C5 at the spec's example text and the keyword
"python". -/
theorem parse_skills_sorted_and_example_witness :
    ((("python").data ∈ parse_result_c5.skills) ↔
      (("python").data ∈ skill_keywords ∧
        containsSub ("python").data (pyLower resume_text_c5) = true)) ∧
    List.Sorted (· ≤ ·) parse_result_c5.skills ∧
    parse_result_c5.skills.Nodup ∧
    parse_resume_text resume_text_c5 = some parse_result_c5 ∧
    PyFloat.val { mantissa := 5, scale := 0 } = 5 :=
  parse_skills_sorted_and_example resume_text_c5 parse_result_c5 ("python").data (by decide)

/-- First-years-line-only extraction, modelled from the claim's words: locate
the first non-empty line containing "years" case-insensitively, take that
line's first qualifying token, parse it, and never look at later lines. -/
def yearsFirstLineOnly (lines : List (List Char)) : Option PyFloat :=
  match lines.find? (fun l => containsSub ("years").data (pyLower l)) with
  | none => none
  | some l =>
    match firstDigitToken l with
    | none => none
    | some tok => lineTokenVal tok

/-- C6 counterexample: on `resume_text_c6` the first "years" line has no
qualifying token; the claim says scanning stops there (no years value), but
the code keeps scanning and extracts 7 from the second "years" line. -/
theorem years_scan_goes_past_first_line_counterexample :
    (parse_resume_text resume_text_c6).map (fun r => r.years_experience) =
      some (some { mantissa := 7, scale := 0 }) ∧
    yearsFirstLineOnly
      (((pySplitlines resume_text_c6).map pyStrip).filter (fun l => !l.isEmpty)) = none ∧
    some ({ mantissa := 7, scale := 0 } : PyFloat) ≠ none :=
  ⟨by decide, by decide, by decide⟩

/-- Fold form of the years loop over just the lines containing "years": each
such line's extracted value updates the running value (a line with no
qualifying token keeps it), and scanning stops at the first truthy (nonzero)
value; an unparsable token still aborts with `none`. -/
def yearsFold : List (List Char) → Option PyFloat → Option (Option PyFloat)
  | [], acc => some acc
  | l :: rest, acc =>
    match lineVal l with
    | none => none
    | some newv =>
      if optTruthy (updAcc acc newv) then some (updAcc acc newv)
      else yearsFold rest (updAcc acc newv)

/-- The years loop equals the fold over just the "years" lines: lines not
containing "years" never matter. -/
lemma yearsScan_eq_yearsFold (lines : List (List Char)) (acc : Option PyFloat) :
    yearsScan lines acc =
      yearsFold (lines.filter (fun l => containsSub ("years").data (pyLower l))) acc := by
  induction lines generalizing acc with
  | nil => rfl
  | cons l rest ih =>
    by_cases hY : containsSub ("years").data (pyLower l) = true
    · rw [List.filter_cons_of_pos (by simpa using hY)]
      simp only [yearsScan, hY, if_true, yearsFold]
      cases hlv : lineVal l with
      | none => rfl
      | some newv =>
        by_cases hA : optTruthy (updAcc acc newv) = true
        · simp [hA]
        · simp only [hA, Bool.false_eq_true, if_false]
          exact ih (updAcc acc newv)
    · have hY' : containsSub ("years").data (pyLower l) = false := by
        cases hb : containsSub ("years").data (pyLower l)
        · rfl
        · exact absurd hb hY
      rw [List.filter_cons_of_neg (by simp [hY'])]
      simp only [yearsScan, hY', Bool.false_eq_true, if_false]
      exact ih acc

/-- C6 amended: `years_experience` comes from scanning every "years" line in
order — each line's first qualifying token value overwrites the running value,
a line with no qualifying token keeps it, and scanning stops only once the
value is nonzero. Lines after the first "years" line therefore do contribute
whenever that line yields no token or the value 0. -/
theorem years_scan_amended (t : List Char) (r : ParseResult)
    (h : parse_resume_text t = some r) :
    some r.years_experience =
      yearsFold ((((pySplitlines t).map pyStrip).filter (fun l => !l.isEmpty)).filter
        (fun l => containsSub ("years").data (pyLower l))) none := by
  obtain ⟨-, -, -, hys, -⟩ := parse_resume_text_fields h
  rw [← hys]
  exact yearsScan_eq_yearsFold _ none

/-- Closed witness for the amended C6 on `resume_text_c6`. -/
theorem years_scan_amended_witness :
    some parse_result_c6.years_experience =
      yearsFold ((((pySplitlines resume_text_c6).map pyStrip).filter (fun l => !l.isEmpty)).filter
        (fun l => containsSub ("years").data (pyLower l))) none :=
  years_scan_amended resume_text_c6 parse_result_c6 (by decide)

/-- Verbatim first-10-non-empty-lines, modelled from the claim's words ("the
original line content unmodified"). -/
def rawSummarySpecVerbatim (t : List Char) : List (List Char) :=
  ((pySplitlines t).filter (fun l => !l.isEmpty)).take 10

/-- C7 counterexample: on `resume_text_c7` the code returns the stripped lines
["hello", "world"], not the original line contents ["  hello  ", "world"], so
"verbatim (the original line content unmodified)" is false. -/
theorem raw_summary_not_verbatim_counterexample :
    (parse_resume_text resume_text_c7).map (fun r => r.raw_summary) =
      some [("hello").data, ("world").data] ∧
    rawSummarySpecVerbatim resume_text_c7 = [("  hello  ").data, ("world").data] ∧
    some [("hello").data, ("world").data] ≠
      some [("  hello  ").data, ("world").data] :=
  ⟨by decide, by decide, by decide⟩

/-- C7 amended: `raw_summary` is the first 10 lines that are non-blank after
stripping, each returned stripped of its leading and trailing whitespace (so
at most 10 entries, and fewer when the text has fewer such lines). -/
theorem raw_summary_stripped_lines (t : List Char) (r : ParseResult)
    (h : parse_resume_text t = some r) :
    r.raw_summary =
      (((pySplitlines t).map pyStrip).filter (fun l => !l.isEmpty)).take 10 ∧
    r.raw_summary.length ≤ 10 := by
  obtain ⟨-, -, -, -, hraw⟩ := parse_resume_text_fields h
  refine ⟨hraw, ?_⟩
  rw [hraw]
  exact List.length_take_le _ _

/-- Closed witness for the amended C7 on `resume_text_c7`. -/
theorem raw_summary_stripped_lines_witness :
    parse_result_c7.raw_summary =
      (((pySplitlines resume_text_c7).map pyStrip).filter (fun l => !l.isEmpty)).take 10 ∧
    parse_result_c7.raw_summary.length ≤ 10 :=
  raw_summary_stripped_lines resume_text_c7 parse_result_c7 (by decide)

/-! Demo seeder: support lemmas and claim C8. -/

/-- `find?` keeps returning its first hit whatever is appended. -/
lemma find?_append_of_some {α : Type} (p : α → Bool) {l₁ : List α} (l₂ : List α) {d : α}
    (h : l₁.find? p = some d) : (l₁ ++ l₂).find? p = some d := by
  induction l₁ with
  | nil => exact Option.noConfusion h
  | cons a t ih =>
    by_cases hp : p a = true
    · rw [List.find?_cons_of_pos _ hp] at h
      rw [List.cons_append, List.find?_cons_of_pos _ hp]
      exact h
    · rw [List.find?_cons_of_neg _ (by simp [hp])] at h
      rw [List.cons_append, List.find?_cons_of_neg _ (by simp [hp])]
      exact ih h

/-- `find?` over an append with no hit on the left. -/
lemma find?_append_of_none {α : Type} (p : α → Bool) {l₁ : List α} (l₂ : List α)
    (h : l₁.find? p = none) : (l₁ ++ l₂).find? p = l₂.find? p := by
  induction l₁ with
  | nil => rfl
  | cons a t ih =>
    by_cases hp : p a = true
    · rw [List.find?_cons_of_pos _ hp] at h
      exact Option.noConfusion h
    · rw [List.find?_cons_of_neg _ (by simp [hp])] at h
      rw [List.cons_append, List.find?_cons_of_neg _ (by simp [hp])]
      exact ih h

/-- The three collections the seeder touches only ever grow by appending. -/
def StoreExt (s t : Store) : Prop :=
  (∃ a, t.users = s.users ++ a) ∧ (∃ b, t.employees = s.employees ++ b) ∧
  (∃ c, t.teams = s.teams ++ c)

/-- Reflexivity of `StoreExt`. -/
lemma storeExt_refl (s : Store) : StoreExt s s :=
  ⟨⟨[], by simp⟩, ⟨[], by simp⟩, ⟨[], by simp⟩⟩

/-- Transitivity of `StoreExt`. -/
lemma storeExt_trans {s t u : Store} (h1 : StoreExt s t) (h2 : StoreExt t u) : StoreExt s u := by
  obtain ⟨⟨a1, ha1⟩, ⟨b1, hb1⟩, ⟨c1, hc1⟩⟩ := h1
  obtain ⟨⟨a2, ha2⟩, ⟨b2, hb2⟩, ⟨c2, hc2⟩⟩ := h2
  exact ⟨⟨a1 ++ a2, by rw [ha2, ha1, List.append_assoc]⟩,
         ⟨b1 ++ b2, by rw [hb2, hb1, List.append_assoc]⟩,
         ⟨c1 ++ c2, by rw [hc2, hc1, List.append_assoc]⟩⟩

/-- `get_or_create_user` only appends. -/
lemma storeExt_gocu (nm email role : String) (dep : Option String) (st : Store) :
    StoreExt st (get_or_create_user nm email role dep st).2 := by
  unfold get_or_create_user
  cases h : find_one_user email st with
  | some d => exact storeExt_refl st
  | none => exact ⟨⟨_, rfl⟩, ⟨[], by simp [insert_user]⟩, ⟨[], by simp [insert_user]⟩⟩

/-- `ensure_employee` only appends. -/
lemma storeExt_ensE (user_id eid ttl : String) (mid tm loc : Option String) (sal : Option ℚ)
    (st : Store) : StoreExt st (ensure_employee user_id eid ttl mid tm loc sal st).2 := by
  unfold ensure_employee
  cases h : find_one_employee user_id st with
  | some d => exact storeExt_refl st
  | none =>
    exact ⟨⟨[], by simp [insert_employee]⟩, ⟨_, rfl⟩, ⟨[], by simp [insert_employee]⟩⟩

/-- `ensure_team` only appends. -/
lemma storeExt_ensT (nm : String) (lead : Option String) (members : List String) (st : Store) :
    StoreExt st (ensure_team nm lead members st).2 := by
  unfold ensure_team
  cases h : find_one_team nm st with
  | some d => exact storeExt_refl st
  | none => exact ⟨⟨[], by simp [insert_team]⟩, ⟨[], by simp [insert_team]⟩, ⟨_, rfl⟩⟩

/-- A user with this email is findable and resolves to the identifier `i`. -/
def FixU (email i : String) (st : Store) : Prop :=
  ∃ d, find_one_user email st = some d ∧ toString d.1 = i

/-- An employee keyed by this user id exists. -/
def FixE (user_id : String) (st : Store) : Prop :=
  ∃ d, find_one_employee user_id st = some d

/-- A team with this name exists. -/
def FixT (nm : String) (st : Store) : Prop :=
  ∃ d, find_one_team nm st = some d

/-- `FixU` survives appending. -/
lemma fixU_mono {email i : String} {s t : Store} (h : FixU email i s) (hx : StoreExt s t) :
    FixU email i t := by
  obtain ⟨d, hd, hi⟩ := h
  obtain ⟨⟨a, ha⟩, -, -⟩ := hx
  refine ⟨d, ?_, hi⟩
  unfold find_one_user at hd ⊢
  rw [ha]
  exact find?_append_of_some _ _ hd

/-- `FixE` survives appending. -/
lemma fixE_mono {user_id : String} {s t : Store} (h : FixE user_id s) (hx : StoreExt s t) :
    FixE user_id t := by
  obtain ⟨d, hd⟩ := h
  obtain ⟨-, ⟨b, hb⟩, -⟩ := hx
  refine ⟨d, ?_⟩
  unfold find_one_employee at hd ⊢
  rw [hb]
  exact find?_append_of_some _ _ hd

/-- `FixT` survives appending. -/
lemma fixT_mono {nm : String} {s t : Store} (h : FixT nm s) (hx : StoreExt s t) :
    FixT nm t := by
  obtain ⟨d, hd⟩ := h
  obtain ⟨-, -, ⟨c, hc⟩⟩ := hx
  refine ⟨d, ?_⟩
  unfold find_one_team at hd ⊢
  rw [hc]
  exact find?_append_of_some _ _ hd

/-- After `get_or_create_user`, a user with the email exists and resolves to
the returned identifier. -/
lemma gocu_post (nm email role : String) (dep : Option String) (st : Store) :
    FixU email (get_or_create_user nm email role dep st).1
      (get_or_create_user nm email role dep st).2 := by
  unfold get_or_create_user
  cases h : find_one_user email st with
  | some d => exact ⟨d, h, rfl⟩
  | none =>
    refine ⟨(st.nextId, { name := nm, email := email, role := role, department := dep,
                          is_active := true }), ?_, rfl⟩
    show find_one_user email (insert_user _ st).2 = _
    unfold find_one_user insert_user
    unfold find_one_user at h
    rw [find?_append_of_none _ _ h, List.find?_cons_of_pos _ (by simp)]

/-- After `ensure_employee`, an employee with the user id exists. -/
lemma ensE_post (user_id eid ttl : String) (mid tm loc : Option String) (sal : Option ℚ)
    (st : Store) : FixE user_id (ensure_employee user_id eid ttl mid tm loc sal st).2 := by
  unfold ensure_employee
  cases h : find_one_employee user_id st with
  | some d => exact ⟨d, h⟩
  | none =>
    refine ⟨(st.nextId, { user_id := user_id, employee_id := eid, title := ttl,
                          manager_id := mid, team := tm, location := loc,
                          salary := sal }), ?_⟩
    show find_one_employee user_id (insert_employee _ st).2 = _
    unfold find_one_employee insert_employee
    unfold find_one_employee at h
    rw [find?_append_of_none _ _ h, List.find?_cons_of_pos _ (by simp)]

/-- After `ensure_team`, a team with the name exists. -/
lemma ensT_post (nm : String) (lead : Option String) (members : List String) (st : Store) :
    FixT nm (ensure_team nm lead members st).2 := by
  unfold ensure_team
  cases h : find_one_team nm st with
  | some d => exact ⟨d, h⟩
  | none =>
    refine ⟨(st.nextId, { name := nm, lead_user_id := lead, members := members }), ?_⟩
    show find_one_team nm (insert_team _ st).2 = _
    unfold find_one_team insert_team
    unfold find_one_team at h
    rw [find?_append_of_none _ _ h, List.find?_cons_of_pos _ (by simp)]

/-- When the user is already findable, `get_or_create_user` is pure lookup:
same identifier, store untouched. -/
lemma gocu_of_fixU {email i : String} {st : Store} (nm role : String) (dep : Option String)
    (h : FixU email i st) : get_or_create_user nm email role dep st = (i, st) := by
  obtain ⟨d, hd, hi⟩ := h
  simp only [get_or_create_user, hd, hi]

/-- When the employee is already findable, `ensure_employee` leaves the store
untouched. -/
lemma ensE_state {user_id : String} {st : Store} (eid ttl : String)
    (mid tm loc : Option String) (sal : Option ℚ) (h : FixE user_id st) :
    (ensure_employee user_id eid ttl mid tm loc sal st).2 = st := by
  obtain ⟨d, hd⟩ := h
  simp only [ensure_employee, hd]

/-- When the team is already findable, `ensure_team` leaves the store
untouched. -/
lemma ensT_state {nm : String} {st : Store} (lead : Option String) (members : List String)
    (h : FixT nm st) : (ensure_team nm lead members st).2 = st := by
  obtain ⟨d, hd⟩ := h
  simp only [ensure_team, hd]

/-- C8: running the demo seeder twice in sequence from any store state is
idempotent: every lookup of the second run finds the record the first run
ensured (users by exact email, employees by user id, teams by name), so the
second run reuses every identifier, creates no duplicate documents, and
returns the same result with the store unchanged. -/
theorem seed_demo_data_idempotent (st : Store) :
    seed_demo_data ((seed_demo_data st).2) = seed_demo_data st := by
  obtain ⟨u1, hu1⟩ : ∃ x, get_or_create_user "Ava Patel" "ava.patel@demo.co" "executive" (some "Executive") st = x := ⟨_, rfl⟩
  obtain ⟨u2, hu2⟩ : ∃ x, get_or_create_user "Liam Chen" "liam.chen@demo.co" "executive" (some "Executive") u1.2 = x := ⟨_, rfl⟩
  obtain ⟨u3, hu3⟩ : ∃ x, get_or_create_user "Maya Ross" "maya.ross@demo.co" "team_lead" (some "Engineering") u2.2 = x := ⟨_, rfl⟩
  obtain ⟨u4, hu4⟩ : ∃ x, get_or_create_user "Noah Green" "noah.green@demo.co" "team_lead" (some "Design") u3.2 = x := ⟨_, rfl⟩
  obtain ⟨u5, hu5⟩ : ∃ x, get_or_create_user "Emma Johnson" "emma.johnson@demo.co" "employee" (some "Engineering") u4.2 = x := ⟨_, rfl⟩
  obtain ⟨u6, hu6⟩ : ∃ x, get_or_create_user "Oliver Smith" "oliver.smith@demo.co" "employee" (some "Engineering") u5.2 = x := ⟨_, rfl⟩
  obtain ⟨u7, hu7⟩ : ∃ x, get_or_create_user "Sophia Davis" "sophia.davis@demo.co" "employee" (some "Engineering") u6.2 = x := ⟨_, rfl⟩
  obtain ⟨u8, hu8⟩ : ∃ x, get_or_create_user "Jack Wilson" "jack.wilson@demo.co" "employee" (some "Design") u7.2 = x := ⟨_, rfl⟩
  obtain ⟨u9, hu9⟩ : ∃ x, get_or_create_user "Mia Thompson" "mia.thompson@demo.co" "employee" (some "Design") u8.2 = x := ⟨_, rfl⟩
  obtain ⟨q1, hq1⟩ : ∃ x, ensure_employee u1.1 "EMP1001" "Chief Executive Officer" none (some "Executive") (some "NYC") (some 300000) u9.2 = x := ⟨_, rfl⟩
  obtain ⟨q2, hq2⟩ : ∃ x, ensure_employee u2.1 "EMP1002" "VP, Operations" (some u1.1) (some "Executive") (some "NYC") (some 220000) q1.2 = x := ⟨_, rfl⟩
  obtain ⟨q3, hq3⟩ : ∃ x, ensure_employee u3.1 "EMP2001" "Engineering Lead" (some u2.1) (some "Engineering") (some "Remote") (some 180000) q2.2 = x := ⟨_, rfl⟩
  obtain ⟨q4, hq4⟩ : ∃ x, ensure_employee u4.1 "EMP3001" "Design Lead" (some u2.1) (some "Design") (some "Remote") (some 170000) q3.2 = x := ⟨_, rfl⟩
  obtain ⟨q5, hq5⟩ : ∃ x, ensure_employee u5.1 "EMP2002" "Senior Software Engineer" (some u3.1) (some "Engineering") (some "Remote") (some 150000) q4.2 = x := ⟨_, rfl⟩
  obtain ⟨q6, hq6⟩ : ∃ x, ensure_employee u6.1 "EMP2003" "Software Engineer" (some u3.1) (some "Engineering") (some "Remote") (some 130000) q5.2 = x := ⟨_, rfl⟩
  obtain ⟨q7, hq7⟩ : ∃ x, ensure_employee u7.1 "EMP2004" "QA Engineer" (some u3.1) (some "Engineering") (some "Remote") (some 120000) q6.2 = x := ⟨_, rfl⟩
  obtain ⟨q8, hq8⟩ : ∃ x, ensure_employee u8.1 "EMP3002" "Product Designer" (some u4.1) (some "Design") (some "Remote") (some 125000) q7.2 = x := ⟨_, rfl⟩
  obtain ⟨q9, hq9⟩ : ∃ x, ensure_employee u9.1 "EMP3003" "UX Researcher" (some u4.1) (some "Design") (some "Remote") (some 115000) q8.2 = x := ⟨_, rfl⟩
  obtain ⟨t1, ht1⟩ : ∃ x, ensure_team "Engineering" (some u3.1) [u3.1, u5.1, u6.1, u7.1] q9.2 = x := ⟨_, rfl⟩
  obtain ⟨t2, ht2⟩ : ∃ x, ensure_team "Design" (some u4.1) [u4.1, u8.1, u9.1] t1.2 = x := ⟨_, rfl⟩
  obtain ⟨t3, ht3⟩ : ∃ x, ensure_team "Executive" (some u1.1) [u1.1, u2.1] t2.2 = x := ⟨_, rfl⟩
  have hseed : seed_demo_data st =
      ({ executives := [u1.1, u2.1], team_leads := [u3.1, u4.1],
         employees := [u5.1, u6.1, u7.1, u8.1, u9.1],
         teams := ["Engineering", "Design", "Executive"] }, t3.2) := by
    simp only [seed_demo_data, hu1, hu2, hu3, hu4, hu5, hu6, hu7, hu8, hu9,
      hq1, hq2, hq3, hq4, hq5, hq6, hq7, hq8, hq9, ht1, ht2, ht3]
  have xT3 : StoreExt t3.2 t3.2 := storeExt_refl _
  have xT2 : StoreExt t2.2 t3.2 := by
    rw [← ht3]
    exact storeExt_ensT _ _ _ _
  have xT1 : StoreExt t1.2 t3.2 := storeExt_trans (by rw [← ht2]; exact storeExt_ensT _ _ _ _) xT2
  have xQ9 : StoreExt q9.2 t3.2 := storeExt_trans (by rw [← ht1]; exact storeExt_ensT _ _ _ _) xT1
  have xQ8 : StoreExt q8.2 t3.2 := storeExt_trans (by rw [← hq9]; exact storeExt_ensE _ _ _ _ _ _ _ _) xQ9
  have xQ7 : StoreExt q7.2 t3.2 := storeExt_trans (by rw [← hq8]; exact storeExt_ensE _ _ _ _ _ _ _ _) xQ8
  have xQ6 : StoreExt q6.2 t3.2 := storeExt_trans (by rw [← hq7]; exact storeExt_ensE _ _ _ _ _ _ _ _) xQ7
  have xQ5 : StoreExt q5.2 t3.2 := storeExt_trans (by rw [← hq6]; exact storeExt_ensE _ _ _ _ _ _ _ _) xQ6
  have xQ4 : StoreExt q4.2 t3.2 := storeExt_trans (by rw [← hq5]; exact storeExt_ensE _ _ _ _ _ _ _ _) xQ5
  have xQ3 : StoreExt q3.2 t3.2 := storeExt_trans (by rw [← hq4]; exact storeExt_ensE _ _ _ _ _ _ _ _) xQ4
  have xQ2 : StoreExt q2.2 t3.2 := storeExt_trans (by rw [← hq3]; exact storeExt_ensE _ _ _ _ _ _ _ _) xQ3
  have xQ1 : StoreExt q1.2 t3.2 := storeExt_trans (by rw [← hq2]; exact storeExt_ensE _ _ _ _ _ _ _ _) xQ2
  have xU9 : StoreExt u9.2 t3.2 := storeExt_trans (by rw [← hq1]; exact storeExt_ensE _ _ _ _ _ _ _ _) xQ1
  have xU8 : StoreExt u8.2 t3.2 := storeExt_trans (by rw [← hu9]; exact storeExt_gocu _ _ _ _ _) xU9
  have xU7 : StoreExt u7.2 t3.2 := storeExt_trans (by rw [← hu8]; exact storeExt_gocu _ _ _ _ _) xU8
  have xU6 : StoreExt u6.2 t3.2 := storeExt_trans (by rw [← hu7]; exact storeExt_gocu _ _ _ _ _) xU7
  have xU5 : StoreExt u5.2 t3.2 := storeExt_trans (by rw [← hu6]; exact storeExt_gocu _ _ _ _ _) xU6
  have xU4 : StoreExt u4.2 t3.2 := storeExt_trans (by rw [← hu5]; exact storeExt_gocu _ _ _ _ _) xU5
  have xU3 : StoreExt u3.2 t3.2 := storeExt_trans (by rw [← hu4]; exact storeExt_gocu _ _ _ _ _) xU4
  have xU2 : StoreExt u2.2 t3.2 := storeExt_trans (by rw [← hu3]; exact storeExt_gocu _ _ _ _ _) xU3
  have xU1 : StoreExt u1.2 t3.2 := storeExt_trans (by rw [← hu2]; exact storeExt_gocu _ _ _ _ _) xU2
  have fu1 : FixU "ava.patel@demo.co" u1.1 t3.2 :=
    fixU_mono (by rw [← hu1]; exact gocu_post _ _ _ _ _) xU1
  have fu2 : FixU "liam.chen@demo.co" u2.1 t3.2 :=
    fixU_mono (by rw [← hu2]; exact gocu_post _ _ _ _ _) xU2
  have fu3 : FixU "maya.ross@demo.co" u3.1 t3.2 :=
    fixU_mono (by rw [← hu3]; exact gocu_post _ _ _ _ _) xU3
  have fu4 : FixU "noah.green@demo.co" u4.1 t3.2 :=
    fixU_mono (by rw [← hu4]; exact gocu_post _ _ _ _ _) xU4
  have fu5 : FixU "emma.johnson@demo.co" u5.1 t3.2 :=
    fixU_mono (by rw [← hu5]; exact gocu_post _ _ _ _ _) xU5
  have fu6 : FixU "oliver.smith@demo.co" u6.1 t3.2 :=
    fixU_mono (by rw [← hu6]; exact gocu_post _ _ _ _ _) xU6
  have fu7 : FixU "sophia.davis@demo.co" u7.1 t3.2 :=
    fixU_mono (by rw [← hu7]; exact gocu_post _ _ _ _ _) xU7
  have fu8 : FixU "jack.wilson@demo.co" u8.1 t3.2 :=
    fixU_mono (by rw [← hu8]; exact gocu_post _ _ _ _ _) xU8
  have fu9 : FixU "mia.thompson@demo.co" u9.1 t3.2 :=
    fixU_mono (by rw [← hu9]; exact gocu_post _ _ _ _ _) xU9
  have fe1 : FixE u1.1 t3.2 := fixE_mono (by rw [← hq1]; exact ensE_post _ _ _ _ _ _ _ _) xQ1
  have fe2 : FixE u2.1 t3.2 := fixE_mono (by rw [← hq2]; exact ensE_post _ _ _ _ _ _ _ _) xQ2
  have fe3 : FixE u3.1 t3.2 := fixE_mono (by rw [← hq3]; exact ensE_post _ _ _ _ _ _ _ _) xQ3
  have fe4 : FixE u4.1 t3.2 := fixE_mono (by rw [← hq4]; exact ensE_post _ _ _ _ _ _ _ _) xQ4
  have fe5 : FixE u5.1 t3.2 := fixE_mono (by rw [← hq5]; exact ensE_post _ _ _ _ _ _ _ _) xQ5
  have fe6 : FixE u6.1 t3.2 := fixE_mono (by rw [← hq6]; exact ensE_post _ _ _ _ _ _ _ _) xQ6
  have fe7 : FixE u7.1 t3.2 := fixE_mono (by rw [← hq7]; exact ensE_post _ _ _ _ _ _ _ _) xQ7
  have fe8 : FixE u8.1 t3.2 := fixE_mono (by rw [← hq8]; exact ensE_post _ _ _ _ _ _ _ _) xQ8
  have fe9 : FixE u9.1 t3.2 := fixE_mono (by rw [← hq9]; exact ensE_post _ _ _ _ _ _ _ _) xQ9
  have ft1 : FixT "Engineering" t3.2 := fixT_mono (by rw [← ht1]; exact ensT_post _ _ _ _) xT1
  have ft2 : FixT "Design" t3.2 := fixT_mono (by rw [← ht2]; exact ensT_post _ _ _ _) xT2
  have ft3 : FixT "Executive" t3.2 := by
    rw [← ht3]
    exact ensT_post _ _ _ _
  rw [hseed]
  simp only [seed_demo_data,
    gocu_of_fixU "Ava Patel" "executive" (some "Executive") fu1,
    gocu_of_fixU "Liam Chen" "executive" (some "Executive") fu2,
    gocu_of_fixU "Maya Ross" "team_lead" (some "Engineering") fu3,
    gocu_of_fixU "Noah Green" "team_lead" (some "Design") fu4,
    gocu_of_fixU "Emma Johnson" "employee" (some "Engineering") fu5,
    gocu_of_fixU "Oliver Smith" "employee" (some "Engineering") fu6,
    gocu_of_fixU "Sophia Davis" "employee" (some "Engineering") fu7,
    gocu_of_fixU "Jack Wilson" "employee" (some "Design") fu8,
    gocu_of_fixU "Mia Thompson" "employee" (some "Design") fu9,
    ensE_state "EMP1001" "Chief Executive Officer" none (some "Executive") (some "NYC") (some 300000) fe1,
    ensE_state "EMP1002" "VP, Operations" (some u1.1) (some "Executive") (some "NYC") (some 220000) fe2,
    ensE_state "EMP2001" "Engineering Lead" (some u2.1) (some "Engineering") (some "Remote") (some 180000) fe3,
    ensE_state "EMP3001" "Design Lead" (some u2.1) (some "Design") (some "Remote") (some 170000) fe4,
    ensE_state "EMP2002" "Senior Software Engineer" (some u3.1) (some "Engineering") (some "Remote") (some 150000) fe5,
    ensE_state "EMP2003" "Software Engineer" (some u3.1) (some "Engineering") (some "Remote") (some 130000) fe6,
    ensE_state "EMP2004" "QA Engineer" (some u3.1) (some "Engineering") (some "Remote") (some 120000) fe7,
    ensE_state "EMP3002" "Product Designer" (some u4.1) (some "Design") (some "Remote") (some 125000) fe8,
    ensE_state "EMP3003" "UX Researcher" (some u4.1) (some "Design") (some "Remote") (some 115000) fe9,
    ensT_state (some u3.1) [u3.1, u5.1, u6.1, u7.1] ft1,
    ensT_state (some u4.1) [u4.1, u8.1, u9.1] ft2,
    ensT_state (some u1.1) [u1.1, u2.1] ft3]

end TalentOps
